import Mathlib

/-!
# Formal model of the go-trello backend

A shallow embedding of the repository's core logic: the password/token
utility (`utils/utils.go`), the user / group / event repositories
(`repository/*.go`), the event date-parsing rules (`models/event.go`),
the login handler (`handlers/user_handlers.go`), the authentication
middleware (`middlewares`, `DeserializeUser`) and the startup secret-key
initialisation called from `main.go`.

External libraries are modelled, not reimplemented:
* bcrypt (`golang.org/x/crypto/bcrypt`) is modelled as a deterministic
  injective tagging function `bhash` together with the verification
  predicate `checkPasswordHash p h := h == bhash p`;
* the JWT library (`github.com/golang-jwt/jwt`) is modelled structurally:
  a token is a record of signing method, claims and a keyed MAC over the
  claims; JSON claim values are `Json.num` or `Json.str`, mirroring the
  fact that Go serialises the numeric `id` claim as a JSON number and
  deserialises it back as a number (float64), never as a string;
* `time.Parse` for the two accepted layouts is abstracted as a
  `TimeLib` parameter, since the repository's own logic is only the
  try-RFC3339-then-fall-back-to-date-only chain;
* the GORM store is modelled as explicit record state (`DB`) with
  soft deletion, mirroring `gorm.Model`'s `DeletedAt` column.
-/

deriving instance DecidableEq for Except

namespace GoTrello

/-- A JSON claim value as the JWT library sees it after decoding:
either a number or a string. Go serialises `uint` claims as JSON
numbers; on parse they come back as numbers (float64), so the
distinction between the two constructors is exactly the distinction
`claims["id"].(string)` trips over. -/
inductive Json where
  | num (n : Nat)
  | str (s : String)
deriving DecidableEq, Repr

/-- Deterministic encoding of a claim value, used by the MAC model. -/
def jsonEncode : Json → String
  | .num n => "n:" ++ toString n
  | .str s => "s:" ++ s

/-- Deterministic encoding of a claim set, used by the MAC model. -/
def claimsEncode : List (String × Json) → String
  | [] => ""
  | (k, v) :: rest => k ++ "=" ++ jsonEncode v ++ ";" ++ claimsEncode rest

/-- HMAC-SHA256 modelled as a deterministic keyed function of the
secret and the encoded claims. -/
def macSign (secret : String) (claims : List (String × Json)) : String :=
  "HMAC(" ++ secret ++ "|" ++ claimsEncode claims ++ ")"

/-- A signed JWT in structural form (the compact string serialisation is
not modelled; a token value stands for its serialised form).
`hmacAlg` records whether the header's signing method is an HMAC method,
which both `jwt.Parse` call sites check. -/
structure Token where
  hmacAlg : Bool
  claims : List (String × Json)
  sig : String
deriving DecidableEq, Repr

/-- `claims[k]` of `jwt.MapClaims`: the first claim with the given key. -/
def lookupClaim (claims : List (String × Json)) (k : String) : Option Json :=
  (claims.find? (fun p => p.fst == k)).map (fun p => p.snd)

/-- `utils.CreateToken(id)` (`utils/utils.go:71-81`): signs
`{"id": id, "exp": now + 1h}` with HS256 under the given secret.
`now` is the issuance time in Unix seconds. -/
def createToken (id : Nat) (now : Nat) (secret : String) : Token :=
  { hmacAlg := true
    claims := [("id", Json.num id), ("exp", Json.num (now + 3600))]
    sig := macSign secret [("id", Json.num id), ("exp", Json.num (now + 3600))] }

/-- Failure modes of `jwt.Parse`. -/
inductive JwtErr where
  | badMethod
  | invalidSignature
  | expired
deriving DecidableEq, Repr

/-- `jwt.Parse` with the repository's keyfunc (`utils/utils.go:97-102`):
reject non-HMAC signing methods, verify the signature with the secret,
and validate the `exp` claim against the current clock. -/
def jwtParse (t : Token) (secret : String) (now : Nat) :
    Except JwtErr (List (String × Json)) :=
  if !t.hmacAlg then .error .badMethod
  else if t.sig != macSign secret t.claims then .error .invalidSignature
  else
    match lookupClaim t.claims "exp" with
    | some (.num e) => if e ≤ now then .error .expired else .ok t.claims
    | _ => .ok t.claims

/-- Go-level outcome of `utils.ExtractIDFromToken`: an error return, a
runtime panic, or a successful string result. -/
inductive ExtractResult where
  | err (e : JwtErr)
  | panicked
  | ok (s : String)
deriving DecidableEq, Repr

/-- `utils.ExtractIDFromToken` (`utils/utils.go:96-115`): parse and
verify the token, then return `claims["id"].(string)`.  The final
expression is an *unchecked* Go type assertion: when the `id` claim is
absent or is not a string (in particular when it is a JSON number), the
assertion panics, modelled by `ExtractResult.panicked`.  The
`!ok && !token.Valid` guard of the source never fires after a successful
parse and is absorbed by the model. -/
def extractIDFromToken (t : Token) (secret : String) (now : Nat) : ExtractResult :=
  match jwtParse t secret now with
  | .error e => .err e
  | .ok claims =>
    match lookupClaim claims "id" with
    | some (.str s) => .ok s
    | _ => .panicked

/-! ## bcrypt model -/

/-- `utils.HashPassword` / `bcrypt.GenerateFromPassword` modelled as a
deterministic injective tagging function: the hash of `p` is `p` behind
a bcrypt prefix.  The model keeps the two properties the claims rely on:
the hash determines the plaintext only through verification, and the
hash is never equal to the plaintext. -/
def bhash (password : String) : String :=
  "$2a$10$" ++ password

/-- `utils.CheckPasswordHash(password, hash)` /
`bcrypt.CompareHashAndPassword`: succeeds exactly when `hash` is the
bcrypt hash of `password`. -/
def checkPasswordHash (password hash : String) : Bool :=
  hash == bhash password

/-! ## Data model (`models/*.go`) and GORM store state -/

/-- `models.User` row.  `gorm.Model` contributes the auto-assigned `id`
and the soft-delete marker `deleted` (the `DeletedAt` column);
timestamps are not modelled. -/
structure UserRec where
  id : Nat
  username : String
  email : String
  password : String
  deleted : Bool
deriving DecidableEq, Repr

/-- `models.Group` row (`gorm.Model` plus unique name). -/
structure GroupRec where
  id : Nat
  name : String
  deleted : Bool
deriving DecidableEq, Repr

/-- `models.Event` row.  The `Date` column (`time.Time`) is modelled as
an abstract instant `Int`; its value only ever comes out of the
date-parsing model `TimeLib`. -/
structure EventRec where
  id : Nat
  name : String
  description : String
  date : Int
  location : String
  deleted : Bool
deriving DecidableEq, Repr

/-- `models.UpdateUserRequest`: all fields optional, `""` means "not
supplied" (GORM `Updates` with a struct skips zero-valued fields). -/
structure UpdateUserRequest where
  username : String
  email : String
  password : String
deriving DecidableEq, Repr

/-- `models.LoginUserRequest`. -/
structure LoginUserRequest where
  email : String
  password : String
deriving DecidableEq, Repr

/-- `models.CreateEventRequest`: the date arrives as a string. -/
structure CreateEventRequest where
  name : String
  description : String
  date : String
  location : String
deriving DecidableEq, Repr

/-- `models.UpdateEventRequest`: all fields optional, `""` means "not
supplied". -/
structure UpdateEventRequest where
  name : String
  description : String
  date : String
  location : String
deriving DecidableEq, Repr

/-- The relational store: one list per table, three association join
tables, and the auto-increment counters GORM maintains (starting at 1).
Deletes are soft (rows are marked, and every query filters them out),
mirroring `gorm.Model`'s `DeletedAt`. -/
structure DB where
  users : List UserRec
  groups : List GroupRec
  events : List EventRec
  groupUsers : List (Nat × Nat)
  eventUsers : List (Nat × Nat)
  eventGroups : List (Nat × Nat)
  nextUserId : Nat
  nextEventId : Nat
deriving DecidableEq, Repr

/-- A freshly migrated, empty store. -/
def emptyDB : DB :=
  { users := [], groups := [], events := []
    groupUsers := [], eventUsers := [], eventGroups := []
    nextUserId := 1, nextEventId := 1 }

/-- `db.First(&user, id)`: the first live (non-soft-deleted) user with
this primary key. -/
def findUser (db : DB) (id : Nat) : Option UserRec :=
  db.users.find? (fun u => u.id == id && !u.deleted)

/-- `db.First(&group, id)`. -/
def findGroup (db : DB) (id : Nat) : Option GroupRec :=
  db.groups.find? (fun g => g.id == id && !g.deleted)

/-- `db.First(&event, id)`. -/
def findEvent (db : DB) (id : Nat) : Option EventRec :=
  db.events.find? (fun e => e.id == id && !e.deleted)

/-- `db.Where("email = ?", email).First(&user)`. -/
def findUserByEmail (db : DB) (email : String) : Option UserRec :=
  db.users.find? (fun u => u.email == email && !u.deleted)

/-- Error values surfaced by the repository layer, with the identity the
handlers test: `gorm.ErrRecordNotFound` (via `errors.Is`), the bcrypt
mismatch error, the raw `time.Parse` error returned by
`CreateEventRequest.ToEvent`, and the repository's own
`errors.New("invalid date format for update")`. -/
inductive RepoErr where
  | recordNotFound
  | bcryptMismatch
  | timeParseError
  | invalidDateFormatUpdate
deriving DecidableEq, Repr

/-- `err.Error()` for each modelled error value. -/
def errString : RepoErr → String
  | .recordNotFound => "record not found"
  | .bcryptMismatch => "crypto/bcrypt: hashedPassword is not the hash of the given password"
  | .timeParseError => "parsing time: cannot parse"
  | .invalidDateFormatUpdate => "invalid date format for update"

/-- `errors.Is(err, gorm.ErrRecordNotFound)`. -/
def isRecordNotFound : RepoErr → Bool
  | .recordNotFound => true
  | _ => false

/-! ## User repository (`repository/user_repository.go`) -/

/-- `userRepositoryImpl.DeleteUser` (`user_repository.go:61-70`):
`db.Delete(&models.User{}, id)` soft-deletes every live row with this
key; if it affected zero rows the repository returns
`gorm.ErrRecordNotFound`. -/
def deleteUser (db : DB) (id : Nat) : Except RepoErr Unit × DB :=
  let affected := (db.users.filter (fun u => u.id == id && !u.deleted)).length
  let newUsers := db.users.map
    (fun u => if u.id == id && !u.deleted then { u with deleted := true } else u)
  let db1 : DB := { db with users := newUsers }
  if affected == 0 then (.error .recordNotFound, db1) else (.ok (), db1)

/-- The field merge `Updates(req)` performs on a matched user row: GORM
struct updates skip zero-valued (empty-string) fields.  Note the
`password` field is written **verbatim** — `UpdateUser` never calls
`HashPassword`. -/
def applyUserUpdate (req : UpdateUserRequest) (u : UserRec) : UserRec :=
  { u with
    username := if req.username != "" then req.username else u.username
    email := if req.email != "" then req.email else u.email
    password := if req.password != "" then req.password else u.password }

/-- `userRepositoryImpl.UpdateUser` (`user_repository.go:72-81`):
`db.Model(&User{}).Where("id = ?", id).Updates(req)`, then
`gorm.ErrRecordNotFound` when zero rows matched. -/
def updateUser (db : DB) (id : Nat) (req : UpdateUserRequest) : Except RepoErr Unit × DB :=
  let affected := (db.users.filter (fun u => u.id == id && !u.deleted)).length
  let newUsers := db.users.map
    (fun u => if u.id == id && !u.deleted then applyUserUpdate req u else u)
  let db1 : DB := { db with users := newUsers }
  if affected == 0 then (.error .recordNotFound, db1) else (.ok (), db1)

/-- `userRepositoryImpl.CreateUser` (`user_repository.go:83-94`): hash
the plaintext, overwrite `req.Password` *in the caller's struct*, insert
the row (GORM back-fills the assigned id into the struct), and return
the new id.  The returned `UserRec` is the caller-visible state of the
argument after the call.  `HashPassword` and the insert are modelled as
always succeeding. -/
def createUser (db : DB) (req : UserRec) : (Except RepoErr (Nat × UserRec)) × DB :=
  let hashed := bhash req.password
  let req1 : UserRec := { req with password := hashed }
  let stored : UserRec := { req1 with id := db.nextUserId }
  (.ok (stored.id, stored),
   { db with users := db.users ++ [stored], nextUserId := db.nextUserId + 1 })

/-- `userRepositoryImpl.LoginUser` (`user_repository.go:98-108`): look
the user up by email (surfacing `gorm.ErrRecordNotFound` as-is when the
email is absent), then compare the bcrypt hash (surfacing the bcrypt
mismatch error as-is when it fails). -/
def loginUser (db : DB) (req : LoginUserRequest) : Except RepoErr Nat :=
  match findUserByEmail db req.email with
  | none => .error .recordNotFound
  | some user =>
    if checkPasswordHash req.password user.password then .ok user.id
    else .error .bcryptMismatch

/-! ## Login handler (`handlers/user_handlers.go:184-209`) -/

/-- An HTTP response: status code and (message or token) body. -/
structure HttpResponse where
  status : Nat
  body : String
deriving DecidableEq, Repr

/-- `UserHandler.Login` after body parsing and validation (both are
framework/library concerns): call the service (a pass-through to
`LoginUser`), map `gorm.ErrRecordNotFound` or an error whose text is
`"invalid credentials"` to 401, any other error to 500, and mint a token
on success. -/
def loginHandler (db : DB) (req : LoginUserRequest) (now : Nat) (secret : String) :
    HttpResponse :=
  match loginUser db req with
  | .error e =>
    if isRecordNotFound e || errString e == "invalid credentials" then
      { status := 401, body := "Invalid username or password" }
    else
      { status := 500, body := "Login failed" }
  | .ok userId =>
    { status := 200, body := (createToken userId now secret).sig }

/-! ## Event date parsing (`models/event.go`, `repository/event_repository.go`) -/

/-- The Go `time` library restricted to the two layouts the repository
uses: `time.Parse(time.RFC3339, ·)` and `time.Parse("2006-01-02", ·)`.
Both are external library calls; only the repository's fallback chain
over them is the code under verification, so they are kept abstract. -/
structure TimeLib where
  parseRFC3339 : String → Option Int
  parseDateOnly : String → Option Int

/-- The dual-format date rule, as written identically in
`CreateEventRequest.ToEvent`, `UpdateEventRequest.ToEvent` and
`eventRepositoryImpl.UpdateEvent`: try the full RFC 3339 timestamp
first; only if that fails fall back to the bare calendar date. -/
def parseEventDate (lib : TimeLib) (s : String) : Option Int :=
  match lib.parseRFC3339 s with
  | some t => some t
  | none => lib.parseDateOnly s

/-- `CreateEventRequest.ToEvent` (`models/event.go:37-52`): parse the
date with the dual-format rule and build the event; on failure return
the `time.Parse` error unchanged. -/
def toEvent (lib : TimeLib) (r : CreateEventRequest) : Except RepoErr EventRec :=
  match parseEventDate lib r.date with
  | none => .error .timeParseError
  | some d =>
    .ok { id := 0, name := r.name, description := r.description
          date := d, location := r.location, deleted := false }

/-! ## Event repository (`repository/event_repository.go`) -/

/-- `eventRepositoryImpl.CreateEvent` (`event_repository.go:34-40`):
insert the row; GORM assigns the id and back-fills it. -/
def repoCreateEvent (db : DB) (ev : EventRec) : Nat × DB :=
  let stored : EventRec := { ev with id := db.nextEventId }
  (stored.id,
   { db with events := db.events ++ [stored], nextEventId := db.nextEventId + 1 })

/-- `eventRepositoryImpl.GetEventByID` (`event_repository.go:43-53`). -/
def getEventByID (db : DB) (id : Nat) : Except RepoErr EventRec :=
  match findEvent db id with
  | none => .error .recordNotFound
  | some ev => .ok ev

/-- The in-memory field merge of `eventRepositoryImpl.UpdateEvent`
(`event_repository.go:75-94`): each non-empty request field overwrites
the fetched row's field; a non-empty date goes through the dual-format
parse and yields `errors.New("invalid date format for update")` when
both layouts fail; an empty date leaves the stored date alone. -/
def applyEventUpdate (lib : TimeLib) (req : UpdateEventRequest) (ev : EventRec) :
    Except RepoErr EventRec :=
  let ev1 := if req.name != "" then { ev with name := req.name } else ev
  let ev2 := if req.description != "" then { ev1 with description := req.description } else ev1
  let ev3 := if req.location != "" then { ev2 with location := req.location } else ev2
  if req.date != "" then
    match parseEventDate lib req.date with
    | none => .error .invalidDateFormatUpdate
    | some d => .ok { ev3 with date := d }
  else .ok ev3

/-- `eventRepositoryImpl.UpdateEvent` (`event_repository.go:66-100`):
fetch the row (`gorm.ErrRecordNotFound` when absent), merge the request
into it, and only on success `Save` the merged row back.  On any error
nothing is written. -/
def updateEvent (lib : TimeLib) (db : DB) (id : Nat) (req : UpdateEventRequest) :
    (Except RepoErr EventRec) × DB :=
  match findEvent db id with
  | none => (.error .recordNotFound, db)
  | some ev =>
    match applyEventUpdate lib req ev with
    | .error e => (.error e, db)
    | .ok ev1 =>
      let newEvents := db.events.map (fun e => if e.id == ev1.id && !e.deleted then ev1 else e)
      (.ok ev1, { db with events := newEvents })

/-- `eventServiceImpl.CreateEvent` (`service/event_service.go:31-44`):
convert the request (date parsing happens here, before any persistence
call), insert, then re-read the full row. -/
def serviceCreateEvent (lib : TimeLib) (db : DB) (req : CreateEventRequest) :
    (Except RepoErr EventRec) × DB :=
  match toEvent lib req with
  | .error e => (.error e, db)
  | .ok ev =>
    let (id, db1) := repoCreateEvent db ev
    (getEventByID db1 id, db1)

/-- `eventRepositoryImpl.DeleteEvent` (`event_repository.go:103-112`):
delete by key, then `gorm.ErrRecordNotFound` when zero rows were
affected — same pattern as `DeleteUser`. -/
def deleteEvent (db : DB) (id : Nat) : Except RepoErr Unit × DB :=
  let affected := (db.events.filter (fun e => e.id == id && !e.deleted)).length
  let newEvents := db.events.map
    (fun e => if e.id == id && !e.deleted then { e with deleted := true } else e)
  let db1 : DB := { db with events := newEvents }
  if affected == 0 then (.error .recordNotFound, db1) else (.ok (), db1)

/-- `eventRepositoryImpl.RemoveUserFromEvent`
(`event_repository.go:130-142`): `First` the event, `First` the user
(each surfacing `gorm.ErrRecordNotFound` when missing), then delete the
association rows — an unconditional join-table delete that succeeds
whether or not the link existed. -/
def removeUserFromEvent (db : DB) (eventID userID : Nat) : Except RepoErr Unit × DB :=
  match findEvent db eventID with
  | none => (.error .recordNotFound, db)
  | some _ =>
    match findUser db userID with
    | none => (.error .recordNotFound, db)
    | some _ =>
      let rest := db.eventUsers.filter (fun p => !(p.1 == eventID && p.2 == userID))
      (.ok (), { db with eventUsers := rest })

/-- `eventRepositoryImpl.RemoveGroupFromEvent`
(`event_repository.go:160-172`): same shape over the `event_groups`
join table. -/
def removeGroupFromEvent (db : DB) (eventID groupID : Nat) : Except RepoErr Unit × DB :=
  match findEvent db eventID with
  | none => (.error .recordNotFound, db)
  | some _ =>
    match findGroup db groupID with
    | none => (.error .recordNotFound, db)
    | some _ =>
      let rest := db.eventGroups.filter (fun p => !(p.1 == eventID && p.2 == groupID))
      (.ok (), { db with eventGroups := rest })

/-! ## Group repository (`repository/group_repository.go`) -/

/-- `GroupRepository.DeleteGroup` (`group_repository.go:36-38`):
`return r.DB.Delete(&models.Group{}, id).Error` — the GORM `Error`
field is nil when the statement ran, *regardless of how many rows it
affected*; unlike `DeleteUser`/`DeleteEvent` there is no
`RowsAffected` check. -/
def deleteGroup (db : DB) (id : Nat) : Except RepoErr Unit × DB :=
  let newGroups := db.groups.map
    (fun g => if g.id == id && !g.deleted then { g with deleted := true } else g)
  (.ok (), { db with groups := newGroups })

/-- `GroupRepository.RemoveUserFromGroup` (`group_repository.go:52-62`):
`First` the group, `First` the user, then unconditionally delete the
association rows. -/
def removeUserFromGroup (db : DB) (groupID userID : Nat) : Except RepoErr Unit × DB :=
  match findGroup db groupID with
  | none => (.error .recordNotFound, db)
  | some _ =>
    match findUser db userID with
    | none => (.error .recordNotFound, db)
    | some _ =>
      let rest := db.groupUsers.filter (fun p => !(p.1 == groupID && p.2 == userID))
      (.ok (), { db with groupUsers := rest })

/-! ## Authentication middleware (`middlewares.DeserializeUser`) -/

/-- Outcome of the middleware: an early JSON rejection, or the request
proceeds with the resolved user attached to `c.Locals("user")`. -/
inductive MWOutcome where
  | reject (status : Nat) (message : String)
  | proceed (user : UserRec)
deriving DecidableEq, Repr

/-- Bearer-token extraction from the `Authorization` header
(`strings.HasPrefix` / `strings.TrimPrefix` over the 7-character ASCII
prefix `"Bearer "`, expressed over the character list): the token is
the suffix after `"Bearer "` when that prefix is present, else the
empty string. -/
def bearerToken (authorization : String) : String :=
  if authorization.toList.take 7 = ("Bearer ").toList
  then String.mk (authorization.toList.drop 7) else ""

/-- `fmt.Sprint(claims["id"])`: a numeric claim prints as its decimal
digits, a string claim as itself, a missing claim as `"<nil>"`. -/
def claimKeyString : Option Json → String
  | some (.num n) => toString n
  | some (.str s) => s
  | none => "<nil>"

/-- Decimal digit value of a character (kernel-computable). -/
def digitVal? (c : Char) : Option Nat :=
  if c.isDigit then some (c.toNat - 48) else none

/-- Decimal parse of a string — `String.toNat?` semantics (all
characters digits, non-empty), written over the character list. -/
def strToNat? (s : String) : Option Nat :=
  if s.toList.isEmpty then none
  else s.toList.foldl (fun acc c =>
    match acc, digitVal? c with
    | some n, some d => some (n * 10 + d)
    | _, _ => none) (some 0)

/-- `db.First(&user, key)` with a string key against the numeric primary
key: a decimal key looks the row up; a non-numeric key makes the query
error, which `DeserializeUser` ignores, leaving the zero-valued user —
i.e. no user found. -/
def lookupUserByKey (db : DB) (key : String) : Option UserRec :=
  match strToNat? key with
  | some n => findUser db n
  | none => none

/-- The user row the token's `id` claim refers to. -/
def referencedUser (db : DB) (claims : List (String × Json)) : Option UserRec :=
  lookupUserByKey db (claimKeyString (lookupClaim claims "id"))

/-- `middlewares.DeserializeUser`: reject 401 when no bearer token is
present; run `jwt.Parse` (the library call, abstracted as the `parse`
argument) and reject 401 on any parse/verification failure; look up the
user the `id` claim references and reject 403 when the row no longer
exists (`user.ID == 0` after the ignored-error `First`); otherwise
attach the user and continue.  The `claims, ok := ...` cast cannot fail
after a successful parse and is absorbed into the `.ok` branch. -/
def deserializeUser (parse : String → Except JwtErr (List (String × Json)))
    (db : DB) (authorization : String) : MWOutcome :=
  let tokenString := bearerToken authorization
  if tokenString == "" then .reject 401 "You are not logged in"
  else
    match parse tokenString with
    | .error _ => .reject 401 "invalidate token"
    | .ok claims =>
      match referencedUser db claims with
      | none => .reject 403 "the user belonging to this token no longer exists"
      | some user =>
        if user.id == 0 then .reject 403 "the user belonging to this token no longer exists"
        else .proceed user

/-! ## Startup secret initialisation (`main.go:38`) -/

/-- Process startup outcome: `log.Fatal` or a running server holding the
process-wide signing secret. -/
inductive StartupOutcome where
  | fatal (message : String)
  | running (secret : String)
deriving DecidableEq, Repr

/-- Modelled from the spec: the body of `utils.InitSecretKey` is not in
src/ — only its call sites are (`main.go:38`, the test suites, and the
test comment "Set a dummy SECRET_KEY for tests ... to avoid init()
failure").  Per the spec: "signed with a process-wide secret loaded once
at startup. Fails fatally at startup if the secret is absent (no silent
insecure default)."  The environment is modelled with `os.Getenv`
semantics (`""` when the variable is unset), so an absent or empty
`SECRET_KEY` is fatal and can never become the signing secret. -/
def initSecretKey (env : String → String) : Except String String :=
  if env "SECRET_KEY" == "" then .error "SECRET_KEY environment variable is not set"
  else .ok (env "SECRET_KEY")

/-- `main` up to the point the server runs (`main.go:33-58`), restricted
to the secret-key concern: `utils.InitSecretKey()` either aborts the
process or leaves the process-wide secret that `CreateToken` and the
middleware use. -/
def startServer (env : String → String) : StartupOutcome :=
  match initSecretKey env with
  | .error m => .fatal m
  | .ok secret => .running secret

/-! ## Concrete fixtures for evaluation -/

/-- A create-user request (plaintext password, id not yet assigned). -/
def aliceReq : UserRec :=
  { id := 0, username := "alice123", email := "a@example.com"
    password := "secret1", deleted := false }

/-- The row `CreateUser` stores for `aliceReq` on an empty store. -/
def storedAlice : UserRec :=
  { id := 1, username := "alice123", email := "a@example.com"
    password := bhash ("secret1"), deleted := false }

/-- The store after `CreateUser(aliceReq)` on an empty store. -/
def dbWithAlice : DB := (createUser emptyDB aliceReq).2

/-- A login request with Alice's email and a wrong password. -/
def wrongLogin : LoginUserRequest :=
  { email := "a@example.com", password := "wrongpw1" }

/-- A login request for an email no user has. -/
def missLogin : LoginUserRequest :=
  { email := "x@example.com", password := "whatever1" }

/-- An update request that only supplies a new password. -/
def pwOnlyUpdate : UpdateUserRequest :=
  { username := "", email := "", password := "newpass1" }

/-- A stored group row. -/
def sampleGroup : GroupRec := { id := 5, name := "devs", deleted := false }

/-- A stored event row. -/
def sampleEvent : EventRec :=
  { id := 3, name := "standup", description := "daily", date := 100
    location := "room1", deleted := false }

/-- A store holding Alice (id 1), one group (id 5) and one event (id 3),
with no associations. -/
def fixtureDB : DB :=
  { users := [storedAlice], groups := [sampleGroup], events := [sampleEvent]
    groupUsers := [], eventUsers := [], eventGroups := []
    nextUserId := 2, nextEventId := 4 }

/-- A concrete instantiation of the `time` library model: one full
timestamp and one bare date parse; everything else fails. -/
def sampleTimeLib : TimeLib :=
  { parseRFC3339 := fun s => if s == "2024-01-02T03:04:05Z" then some 1704164645 else none
    parseDateOnly := fun s => if s == "2024-01-02" then some 1704153600 else none }

/-- A create-event request whose date is a bare calendar date. -/
def goodDateCreq : CreateEventRequest :=
  { name := "party", description := "", date := "2024-01-02", location := "hall" }

/-- An update-event request whose date matches neither layout. -/
def badDateReq : UpdateEventRequest :=
  { name := "", description := "", date := "garbage", location := "" }

/-- An update-event request supplying no date (and a new location). -/
def noDateReq : UpdateEventRequest :=
  { name := "", description := "", date := "", location := "room2" }

/-- The row `UpdateEvent` stores for `noDateReq` applied to
`sampleEvent`. -/
def updatedSampleEvent : EventRec := { sampleEvent with location := "room2" }

/-- A concrete stand-in for `jwt.Parse`: one good token naming user 1,
everything else a signature failure. -/
def stubJwtVerify : String → Except JwtErr (List (String × Json)) :=
  fun s => if s == "goodtoken" then .ok [("id", Json.num 1)] else .error .invalidSignature

/-- An environment with `SECRET_KEY` set. -/
def sampleEnv : String → String :=
  fun v => if v == "SECRET_KEY" then "s3cr3t" else ""

end GoTrello

namespace GoTrello

/-- C1. Token round-trip: the claim states
`ExtractIDFromToken(CreateToken(id), secret) = id` under the same secret
before expiry.  The code violates it: `CreateToken` stores the id as a
JSON *number*, and `ExtractIDFromToken` force-asserts the claim to a
*string* (`claims["id"].(string)`), so the round trip panics for every
issued token instead of returning the id — even immediately after
issuance, with the matching secret. -/
theorem C1_roundtrip_panics (id : Nat) (secret : String) (now : Nat) :
    extractIDFromToken (createToken id now secret) secret now = .panicked := by
  simp [extractIDFromToken, createToken, jwtParse, lookupClaim, List.find?]

/-- The bcrypt model never returns its input: a hash differs from the
plaintext it hashes (the tag prefix strictly lengthens the string). -/
theorem bhash_ne_plain (p : String) : bhash p ≠ p := by
  intro h
  have h2 := congrArg String.length h
  rw [bhash, String.length_append] at h2
  simp at h2
  exact absurd h2 (by decide)

/-- C2. The claim — across CreateUser and UpdateUser the stored password
is never the client plaintext, always a bcrypt hash — fails on
`UpdateUser`: it hands the request to GORM `Updates` without calling
`HashPassword`, so after creating Alice and updating her password, the
row holds the raw plaintext `"newpass1"`, which is not its bcrypt
hash. -/
theorem C2_updateUser_stores_plaintext :
    (findUser (updateUser dbWithAlice 1 pwOnlyUpdate).2 1).map UserRec.password
        = some ("newpass1")
      ∧ ("newpass1" : String) ≠ bhash ("newpass1") := by
  exact ⟨by decide, by decide⟩

/-- C3, counterexample. The claim says a password mismatch and an
unknown email fail indistinguishably and that the handler maps either
failure to HTTP 401.  On the code, a password mismatch surfaces the
bcrypt error — a different value from `gorm.ErrRecordNotFound` — and
the `Login` handler's check (`errors.Is(err, ErrRecordNotFound) ||
err.Error() == "invalid credentials"`) does not match it, so the
response is 500, not 401. -/
theorem C3_password_mismatch_is_500 :
    loginUser dbWithAlice wrongLogin = .error .bcryptMismatch
      ∧ loginUser dbWithAlice wrongLogin ≠ .error .recordNotFound
      ∧ loginHandler dbWithAlice wrongLogin 0 ("s")
          = { status := 500, body := "Login failed" }
      ∧ (500 : Nat) ≠ 401 := by
  exact ⟨by decide, by decide, by decide, by decide⟩

/-- C3, amended. `LoginUser` fails with `gorm.ErrRecordNotFound` when no
user has the email and with the bcrypt mismatch error when the password
does not match — two distinct, caller-distinguishable errors — and the
`Login` handler maps the former to HTTP 401 and the latter to
HTTP 500. -/
theorem C3_login_errors (db : DB) (req : LoginUserRequest) (now : Nat) (secret : String) :
    (findUserByEmail db req.email = none →
      loginUser db req = .error .recordNotFound ∧
      loginHandler db req now secret
        = { status := 401, body := "Invalid username or password" }) ∧
    (∀ u, findUserByEmail db req.email = some u →
      checkPasswordHash req.password u.password = false →
      loginUser db req = .error .bcryptMismatch ∧
      loginHandler db req now secret = { status := 500, body := "Login failed" }) ∧
    RepoErr.recordNotFound ≠ RepoErr.bcryptMismatch := by
  refine ⟨?_, ?_, by decide⟩
  · intro h
    have hl : loginUser db req = .error .recordNotFound := by
      simp [loginUser, h]
    exact ⟨hl, by simp [loginHandler, hl, isRecordNotFound]⟩
  · intro u hu hc
    have hl : loginUser db req = .error .bcryptMismatch := by
      simp [loginUser, hu, hc]
    refine ⟨hl, ?_⟩
    simp [loginHandler, hl, isRecordNotFound, errString]

/-- Witness for C3's amended theorem at concrete inputs: an unknown
email on the empty store, and Alice's email with a wrong password. -/
theorem C3_login_errors_witness :
    (loginUser emptyDB missLogin = .error .recordNotFound ∧
      loginHandler emptyDB missLogin 0 ("s")
        = { status := 401, body := "Invalid username or password" }) ∧
    (loginUser dbWithAlice wrongLogin = .error .bcryptMismatch ∧
      loginHandler dbWithAlice wrongLogin 0 ("s")
        = { status := 500, body := "Login failed" }) := by
  constructor
  · exact (C3_login_errors emptyDB missLogin 0 ("s")).1 (by decide)
  · exact (C3_login_errors dbWithAlice wrongLogin 0 ("s")).2.1 storedAlice (by decide) (by decide)

/-- C6, counterexample. `DeleteGroup` never inspects `RowsAffected`:
deleting group 5 on an empty store — zero rows affected — returns
success, not `NotFound`, refuting the uniform-NotFound claim. -/
theorem C6_deleteGroup_zero_rows_succeeds :
    (deleteGroup emptyDB 5).1 = .ok ()
      ∧ (deleteGroup emptyDB 5).1 ≠ .error .recordNotFound
      ∧ findGroup emptyDB 5 = none := by
  exact ⟨rfl, by decide, rfl⟩

/-- C6, amended. `DeleteUser` and `DeleteEvent` signal
`gorm.ErrRecordNotFound` when the delete affects zero rows;
`DeleteGroup` performs no such check and reports success for every
id. -/
theorem C6_delete_zero_rows (db : DB) (idU idG idE : Nat)
    (hu : findUser db idU = none) (he : findEvent db idE = none) :
    (deleteUser db idU).1 = .error .recordNotFound ∧
    (deleteEvent db idE).1 = .error .recordNotFound ∧
    (deleteGroup db idG).1 = .ok () := by
  refine ⟨?_, ?_, rfl⟩
  · have hf : db.users.filter (fun u => u.id == idU && !u.deleted) = [] := by
      rw [List.filter_eq_nil_iff]
      intro a ha
      have := List.find?_eq_none.mp hu a ha
      simpa using this
    simp [deleteUser, hf]
  · have hf : db.events.filter (fun e => e.id == idE && !e.deleted) = [] := by
      rw [List.filter_eq_nil_iff]
      intro a ha
      have := List.find?_eq_none.mp he a ha
      simpa using this
    simp [deleteEvent, hf]

/-- Witness for C6's amended theorem: on the empty store, user and event
deletes signal not-found while the group delete succeeds. -/
theorem C6_delete_zero_rows_witness :
    (deleteUser emptyDB 5).1 = .error .recordNotFound ∧
    (deleteEvent emptyDB 7).1 = .error .recordNotFound ∧
    (deleteGroup emptyDB 9).1 = .ok () :=
  C6_delete_zero_rows emptyDB 5 9 7 rfl rfl

/-- C9. Startup requires the signing secret: with `SECRET_KEY` unset (or
empty — `os.Getenv` cannot tell the two apart) the process dies fatally
before serving, and whenever the server is running its process-wide
signing secret is exactly the configured environment value and is never
the empty default. -/
theorem C9_secret_key_required (env : String → String) :
    (env ("SECRET_KEY") = "" →
      startServer env = .fatal ("SECRET_KEY environment variable is not set")) ∧
    (∀ s, startServer env = .running s → s = env ("SECRET_KEY") ∧ s ≠ "") := by
  constructor
  · intro h
    simp [startServer, initSecretKey, h]
  · intro s hs
    unfold startServer initSecretKey at hs
    by_cases h : env ("SECRET_KEY") = ""
    · simp [h] at hs
    · simp [h] at hs
      exact ⟨hs.symm, hs ▸ h⟩

/-- Witness for C9 at concrete environments: an empty environment is
fatal; an environment carrying `s3cr3t` yields that very secret. -/
theorem C9_secret_key_required_witness :
    startServer (fun _ => "") = .fatal ("SECRET_KEY environment variable is not set") ∧
    (("s3cr3t" : String) = sampleEnv ("SECRET_KEY") ∧ ("s3cr3t" : String) ≠ "") := by
  constructor
  · exact (C9_secret_key_required (fun _ => "")).1 rfl
  · exact (C9_secret_key_required sampleEnv).2 ("s3cr3t") (by decide)

/-- C10. `CreateUser` mutates its argument: on success the
caller-visible struct carries the bcrypt hash in place of the plaintext
password (and the hash is never the plaintext itself), the
store-assigned id, and every other field unchanged. -/
theorem C10_createUser_mutates_request (db : DB) (u : UserRec) (id : Nat) (u1 : UserRec)
    (h : (createUser db u).1 = .ok (id, u1)) :
    u1.password = bhash u.password ∧
    u1.password ≠ u.password ∧
    u1.username = u.username ∧
    u1.email = u.email ∧
    u1.deleted = u.deleted ∧
    u1.id = db.nextUserId ∧
    id = db.nextUserId := by
  simp only [createUser, Except.ok.injEq, Prod.mk.injEq] at h
  obtain ⟨hid, hu1⟩ := h
  subst hid
  subst hu1
  refine ⟨rfl, ?_, rfl, rfl, rfl, rfl, rfl⟩
  simpa using bhash_ne_plain u.password

/-- The dual-format rule fails exactly when both layouts fail. -/
theorem parseEventDate_none_iff (lib : TimeLib) (s : String) :
    parseEventDate lib s = none ↔
      lib.parseRFC3339 s = none ∧ lib.parseDateOnly s = none := by
  unfold parseEventDate
  cases h : lib.parseRFC3339 s <;> simp [h]

/-- `ToEvent` fails (with the raw parse error) exactly when the
dual-format parse of its date fails. -/
theorem toEvent_error_iff (lib : TimeLib) (r : CreateEventRequest) :
    toEvent lib r = .error .timeParseError ↔ parseEventDate lib r.date = none := by
  unfold toEvent
  cases h : parseEventDate lib r.date <;> simp [h]

/-- Closed form of the `UpdateEvent` field merge: the three text fields
merge independently of the date branch. -/
theorem applyEventUpdate_eq (lib : TimeLib) (req : UpdateEventRequest) (ev : EventRec) :
    applyEventUpdate lib req ev =
      (if req.date != "" then
        match parseEventDate lib req.date with
        | none => .error .invalidDateFormatUpdate
        | some d =>
          .ok { ev with
                name := if req.name != "" then req.name else ev.name
                description := if req.description != "" then req.description else ev.description
                location := if req.location != "" then req.location else ev.location
                date := d }
      else
        .ok { ev with
              name := if req.name != "" then req.name else ev.name
              description := if req.description != "" then req.description else ev.description
              location := if req.location != "" then req.location else ev.location }) := by
  unfold applyEventUpdate
  by_cases h1 : (req.name != "") = true <;>
    by_cases h2 : (req.description != "") = true <;>
      by_cases h3 : (req.location != "") = true <;>
        simp [h1, h2, h3]

/-- `UpdateEvent` on a present row reduces to the field merge followed by
`Save`. -/
theorem updateEvent_found (lib : TimeLib) (db : DB) (id : Nat) (req : UpdateEventRequest)
    (ev : EventRec) (hev : findEvent db id = some ev) :
    updateEvent lib db id req =
      match applyEventUpdate lib req ev with
      | .error e => (.error e, db)
      | .ok ev1 =>
        (.ok ev1,
         { db with events := db.events.map (fun e => if e.id == ev1.id && !e.deleted then ev1 else e) }) := by
  unfold updateEvent
  rw [hev]

/-- C4. Date handling for event create and update with a non-empty date
string: the full-timestamp layout is attempted first, the bare
calendar-date layout only as fallback; the create conversion fails
exactly when both layouts fail, and then the service persists nothing;
the update fails with the invalid-date-format error exactly when both
layouts fail, and then the store is left untouched. -/
theorem C4_date_fallback (lib : TimeLib) (db : DB) (id : Nat)
    (creq : CreateEventRequest) (req : UpdateEventRequest) (ev : EventRec)
    (hud : req.date ≠ "") (hev : findEvent db id = some ev) :
    (∀ s t, lib.parseRFC3339 s = some t → parseEventDate lib s = some t) ∧
    (∀ s, lib.parseRFC3339 s = none → parseEventDate lib s = lib.parseDateOnly s) ∧
    (toEvent lib creq = .error .timeParseError ↔
      lib.parseRFC3339 creq.date = none ∧ lib.parseDateOnly creq.date = none) ∧
    (toEvent lib creq = .error .timeParseError →
      serviceCreateEvent lib db creq = (.error .timeParseError, db)) ∧
    ((updateEvent lib db id req).1 = .error .invalidDateFormatUpdate ↔
      lib.parseRFC3339 req.date = none ∧ lib.parseDateOnly req.date = none) ∧
    ((updateEvent lib db id req).1 = .error .invalidDateFormatUpdate →
      (updateEvent lib db id req).2 = db) := by
  have hb : (req.date != "") = true := by simpa using hud
  refine ⟨?_, ?_, ?_, ?_, ?_, ?_⟩
  · intro s t h
    simp [parseEventDate, h]
  · intro s h
    simp [parseEventDate, h]
  · exact (toEvent_error_iff lib creq).trans (parseEventDate_none_iff lib creq.date)
  · intro h
    simp [serviceCreateEvent, h]
  · rw [← parseEventDate_none_iff, updateEvent_found lib db id req ev hev,
      applyEventUpdate_eq, if_pos hb]
    cases hp : parseEventDate lib req.date <;> simp [hp]
  · rw [updateEvent_found lib db id req ev hev, applyEventUpdate_eq, if_pos hb]
    cases hp : parseEventDate lib req.date <;> simp [hp]

/-- Witness for C4 at concrete inputs: updating event 3 with the
unparseable date `"garbage"` fails with the invalid-date error and
leaves the store untouched. -/
theorem C4_date_fallback_witness :
    ((updateEvent sampleTimeLib fixtureDB 3 badDateReq).1 = .error .invalidDateFormatUpdate ↔
      sampleTimeLib.parseRFC3339 ("garbage") = none ∧
        sampleTimeLib.parseDateOnly ("garbage") = none) ∧
    ((updateEvent sampleTimeLib fixtureDB 3 badDateReq).1 = .error .invalidDateFormatUpdate →
      (updateEvent sampleTimeLib fixtureDB 3 badDateReq).2 = fixtureDB) := by
  constructor
  · exact (C4_date_fallback sampleTimeLib fixtureDB 3 goodDateCreq badDateReq sampleEvent
      (by decide) (by decide)).2.2.2.2.1
  · exact (C4_date_fallback sampleTimeLib fixtureDB 3 goodDateCreq badDateReq sampleEvent
      (by decide) (by decide)).2.2.2.2.2

/-- C5. Frame property of `UpdateEvent`: on success, an empty date field
leaves the stored date unchanged; each of the text fields is overwritten
exactly when non-empty in the request; id and deletion state are
untouched; and no other table of the store changes. -/
theorem C5_update_frame (lib : TimeLib) (db : DB) (id : Nat) (req : UpdateEventRequest)
    (ev ev1 : EventRec) (hev : findEvent db id = some ev)
    (hok : (updateEvent lib db id req).1 = .ok ev1) :
    (req.date = "" → ev1.date = ev.date) ∧
    ev1.name = (if req.name != "" then req.name else ev.name) ∧
    ev1.description = (if req.description != "" then req.description else ev.description) ∧
    ev1.location = (if req.location != "" then req.location else ev.location) ∧
    ev1.id = ev.id ∧
    ev1.deleted = ev.deleted ∧
    (updateEvent lib db id req).2.users = db.users ∧
    (updateEvent lib db id req).2.groups = db.groups ∧
    (updateEvent lib db id req).2.groupUsers = db.groupUsers ∧
    (updateEvent lib db id req).2.eventUsers = db.eventUsers ∧
    (updateEvent lib db id req).2.eventGroups = db.eventGroups := by
  rw [updateEvent_found lib db id req ev hev, applyEventUpdate_eq] at hok ⊢
  by_cases hd : (req.date != "") = true
  · rw [if_pos hd] at hok ⊢
    cases hp : parseEventDate lib req.date with
    | none =>
      rw [hp] at hok
      simp at hok
    | some d =>
      rw [hp] at hok
      have hv : ({ ev with
          name := if req.name != "" then req.name else ev.name
          description := if req.description != "" then req.description else ev.description
          location := if req.location != "" then req.location else ev.location
          date := d } : EventRec) = ev1 := by
        simpa using hok
      subst hv
      refine ⟨?_, rfl, rfl, rfl, rfl, rfl, rfl, rfl, rfl, rfl, rfl⟩
      intro h
      rw [h] at hd
      exact absurd hd (by decide)
  · rw [if_neg hd] at hok ⊢
    have hv : ({ ev with
        name := if req.name != "" then req.name else ev.name
        description := if req.description != "" then req.description else ev.description
        location := if req.location != "" then req.location else ev.location } : EventRec) = ev1 := by
      simpa using hok
    subst hv
    exact ⟨fun _ => rfl, rfl, rfl, rfl, rfl, rfl, rfl, rfl, rfl, rfl, rfl⟩

/-- Witness for C5 at concrete inputs: updating event 3 with a request
carrying no date and a new location keeps the stored date and id,
changes only the location, and leaves every other table unchanged. -/
theorem C5_update_frame_witness :
    ((1 : Nat) = 1 → updatedSampleEvent.date = sampleEvent.date) ∧
    updatedSampleEvent.name
      = (if noDateReq.name != "" then noDateReq.name else sampleEvent.name) ∧
    updatedSampleEvent.description
      = (if noDateReq.description != "" then noDateReq.description else sampleEvent.description) ∧
    updatedSampleEvent.location
      = (if noDateReq.location != "" then noDateReq.location else sampleEvent.location) ∧
    updatedSampleEvent.id = sampleEvent.id ∧
    updatedSampleEvent.deleted = sampleEvent.deleted := by
  have h := C5_update_frame sampleTimeLib fixtureDB 3 noDateReq sampleEvent
    updatedSampleEvent (by decide) (by decide)
  exact ⟨fun _ => h.1 rfl, h.2.1, h.2.2.1, h.2.2.2.1, h.2.2.2.2.1, h.2.2.2.2.2.1⟩

/-- C7. Each association removal (`RemoveUserFromGroup`,
`RemoveUserFromEvent`, `RemoveGroupFromEvent`) fails with NotFound when
the parent or the child row does not exist, and succeeds — for every
store, in particular one holding no such association — whenever both
rows exist. -/
theorem C7_remove_association (db : DB) (gid uid eid : Nat) :
    (findGroup db gid = none →
      (removeUserFromGroup db gid uid).1 = .error .recordNotFound) ∧
    (∀ g, findGroup db gid = some g → findUser db uid = none →
      (removeUserFromGroup db gid uid).1 = .error .recordNotFound) ∧
    (∀ g u, findGroup db gid = some g → findUser db uid = some u →
      (removeUserFromGroup db gid uid).1 = .ok ()) ∧
    (findEvent db eid = none →
      (removeUserFromEvent db eid uid).1 = .error .recordNotFound) ∧
    (∀ ev, findEvent db eid = some ev → findUser db uid = none →
      (removeUserFromEvent db eid uid).1 = .error .recordNotFound) ∧
    (∀ ev u, findEvent db eid = some ev → findUser db uid = some u →
      (removeUserFromEvent db eid uid).1 = .ok ()) ∧
    (findEvent db eid = none →
      (removeGroupFromEvent db eid gid).1 = .error .recordNotFound) ∧
    (∀ ev, findEvent db eid = some ev → findGroup db gid = none →
      (removeGroupFromEvent db eid gid).1 = .error .recordNotFound) ∧
    (∀ ev g, findEvent db eid = some ev → findGroup db gid = some g →
      (removeGroupFromEvent db eid gid).1 = .ok ()) := by
  refine ⟨?_, ?_, ?_, ?_, ?_, ?_, ?_, ?_, ?_⟩
  · intro h
    simp [removeUserFromGroup, h]
  · intro g hg hu
    simp [removeUserFromGroup, hg, hu]
  · intro g u hg hu
    simp [removeUserFromGroup, hg, hu]
  · intro h
    simp [removeUserFromEvent, h]
  · intro ev hev hu
    simp [removeUserFromEvent, hev, hu]
  · intro ev u hev hu
    simp [removeUserFromEvent, hev, hu]
  · intro h
    simp [removeGroupFromEvent, h]
  · intro ev hev hg
    simp [removeGroupFromEvent, hev, hg]
  · intro ev g hev hg
    simp [removeGroupFromEvent, hev, hg]

/-- Witness for C7 at concrete inputs: with Alice, group 5 and event 3
stored and no associations at all, each removal succeeds; with a
missing parent it signals not-found. -/
theorem C7_remove_association_witness :
    (removeUserFromGroup fixtureDB 5 1).1 = .ok () ∧
    (removeUserFromGroup fixtureDB 99 1).1 = .error .recordNotFound ∧
    (removeUserFromEvent fixtureDB 3 1).1 = .ok () ∧
    (removeGroupFromEvent fixtureDB 3 5).1 = .ok () := by
  refine ⟨?_, ?_, ?_, ?_⟩
  · exact (C7_remove_association fixtureDB 5 1 3).2.2.1 sampleGroup storedAlice
      (by decide) (by decide)
  · exact (C7_remove_association fixtureDB 99 1 3).1 (by decide)
  · exact (C7_remove_association fixtureDB 5 1 3).2.2.2.2.2.1 sampleEvent storedAlice
      (by decide) (by decide)
  · exact (C7_remove_association fixtureDB 5 1 3).2.2.2.2.2.2.2.2 sampleEvent sampleGroup
      (by decide) (by decide)

/-- C8. The authentication middleware: no bearer token → 401; token
present but failing the library's parse/signature/expiry verification →
401; token verified but the referenced user row gone → 403; otherwise
the loaded user is attached and the request proceeds. -/
theorem C8_auth_middleware (parse : String → Except JwtErr (List (String × Json)))
    (db : DB) (auth : String) :
    (bearerToken auth = "" →
      deserializeUser parse db auth = .reject 401 "You are not logged in") ∧
    (∀ e, bearerToken auth ≠ "" → parse (bearerToken auth) = .error e →
      deserializeUser parse db auth = .reject 401 "invalidate token") ∧
    (∀ claims, bearerToken auth ≠ "" → parse (bearerToken auth) = .ok claims →
      referencedUser db claims = none →
      deserializeUser parse db auth
        = .reject 403 "the user belonging to this token no longer exists") ∧
    (∀ claims user, bearerToken auth ≠ "" → parse (bearerToken auth) = .ok claims →
      referencedUser db claims = some user → user.id ≠ 0 →
      deserializeUser parse db auth = .proceed user) := by
  refine ⟨?_, ?_, ?_, ?_⟩
  · intro h
    simp [deserializeUser, h]
  · intro e hne hp
    have hb : (bearerToken auth == "") = false := beq_eq_false_iff_ne.mpr hne
    simp [deserializeUser, hb, hp]
  · intro claims hne hp hr
    have hb : (bearerToken auth == "") = false := beq_eq_false_iff_ne.mpr hne
    simp [deserializeUser, hb, hp, hr]
  · intro claims user hne hp hr h0
    have hb : (bearerToken auth == "") = false := beq_eq_false_iff_ne.mpr hne
    have hz : (user.id == 0) = false := beq_eq_false_iff_ne.mpr h0
    simp [deserializeUser, hb, hp, hr, hz]

/-- Witness for C8 at concrete inputs: missing header, bad token, valid
token for a store without the user, and valid token for a store with
Alice. -/
theorem C8_auth_middleware_witness :
    deserializeUser stubJwtVerify fixtureDB ("")
      = .reject 401 "You are not logged in" ∧
    deserializeUser stubJwtVerify fixtureDB ("Bearer badtoken")
      = .reject 401 "invalidate token" ∧
    deserializeUser stubJwtVerify emptyDB ("Bearer goodtoken")
      = .reject 403 "the user belonging to this token no longer exists" ∧
    deserializeUser stubJwtVerify fixtureDB ("Bearer goodtoken") = .proceed storedAlice := by
  refine ⟨?_, ?_, ?_, ?_⟩
  · exact (C8_auth_middleware stubJwtVerify fixtureDB ("")).1 rfl
  · exact (C8_auth_middleware stubJwtVerify fixtureDB ("Bearer badtoken")).2.1
      .invalidSignature (by decide) (by decide)
  · exact (C8_auth_middleware stubJwtVerify emptyDB ("Bearer goodtoken")).2.2.1
      [("id", Json.num 1)] (by decide) (by decide) (by decide)
  · exact (C8_auth_middleware stubJwtVerify fixtureDB ("Bearer goodtoken")).2.2.2
      [("id", Json.num 1)] storedAlice (by decide) (by decide) (by decide) (by decide)

/-- Witness for C10: creating Alice on the empty store yields the stored
row with hashed password and id 1. -/
theorem C10_createUser_mutates_request_witness :
    storedAlice.password = bhash aliceReq.password ∧
    storedAlice.password ≠ aliceReq.password ∧
    storedAlice.username = aliceReq.username ∧
    storedAlice.email = aliceReq.email ∧
    storedAlice.deleted = aliceReq.deleted ∧
    storedAlice.id = emptyDB.nextUserId ∧
    1 = emptyDB.nextUserId :=
  C10_createUser_mutates_request emptyDB aliceReq 1 storedAlice (by decide)

end GoTrello
